import Mathlib

/-!
Shallow embedding of the microloan bookkeeping service
(Flask app: health route, config, logging setup, loan repository,
stats aggregator) and proofs of its specified properties.

Files embedded from source: `app/routes/health.py`, `app/config.py`,
`app/__init__.py`.  The loan and stats route handlers
(`app/routes/loans.py`, `app/routes/stats.py`) are registered by
`create_app` but their source files are absent from the repository
snapshot; those operations are modelled from the specification and
marked as such in their doc comments.
-/

/-- Lifecycle state of a loan (spec section 3: `pending`, `active`,
`closed`, `defaulted`; defaults to the initial state at creation). -/
inductive LoanStatus where
  | pending
  | active
  | closed
  | defaulted
deriving DecidableEq, Repr

/-- A loan row, as described by the spec's data model (section 3).
Monetary values are rationals; `created_at` is an abstract timestamp. -/
structure Loan where
  id : String
  borrower_id : String
  amount : Rat
  currency : String
  term_months : Int
  interest_rate_apr : Rat
  status : LoanStatus
  created_at : Nat
deriving DecidableEq, Repr

/-- The durable store: the list of persisted loan rows, in insertion order. -/
def Store := List Loan

/-- A database action performed by a handler while serving one request. -/
inductive DbAction where
  | execSelect1
deriving DecidableEq, Repr

/-- Result of one `GET /health` request: the database actions the handler
performed, the JSON body fields, the HTTP status code, and the store
after the request. -/
structure HealthResult where
  dbActions : List DbAction
  status : String
  database : String
  httpCode : Nat
  stored : List Loan
deriving Repr

/-- Whether a probe outcome is a success. -/
def probeOk (probe : Except String Unit) : Bool :=
  match probe with
  | Except.ok _ => true
  | Except.error _ => false

/-- Embedding of `health_check` in `app/routes/health.py`.  The handler
executes `SELECT 1` once inside a try block; on success it reports
`healthy`/200, on any exception it reports `unhealthy`/500; the JSON
`status` field is `ok` exactly when `db_status` is `healthy`.  The
`probe` argument is the outcome of the single `db.session.execute`
call (`Except.error e` embeds a raised exception `e`); the store is
returned unchanged because the handler issues only the read-only
`SELECT 1`. -/
def health_check (probe : Except String Unit) (store : List Loan) : HealthResult :=
  let (db_status, status_code) :=
    match probe with
    | Except.ok _ => ("healthy", 200)
    | Except.error _e => ("unhealthy", 500)
  { dbActions := [DbAction.execSelect1]
    status := if db_status = "healthy" then "ok" else "error"
    database := db_status
    httpCode := status_code
    stored := store }

/-- C1: for every probe outcome, the health endpoint returns 200 with
body `status=ok, database=healthy` exactly when the `SELECT 1` probe
succeeds, and 500 with `status=error, database=unhealthy` exactly when
it fails; `status` is `ok` iff `database` is `healthy`. -/
theorem health_c1_verdict_matches_probe (probe : Except String Unit) (store : List Loan) :
    (probeOk probe = true ↔
      ((health_check probe store).httpCode = 200 ∧
       (health_check probe store).status = "ok" ∧
       (health_check probe store).database = "healthy")) ∧
    (probeOk probe = false ↔
      ((health_check probe store).httpCode = 500 ∧
       (health_check probe store).status = "error" ∧
       (health_check probe store).database = "unhealthy")) ∧
    ((health_check probe store).status = "ok" ↔
      (health_check probe store).database = "healthy") := by
  cases probe <;> simp [health_check, probeOk]

/-- C2: every probe failure is caught and mapped to the unhealthy
verdict without retrying and without propagating the exception: the
handler performs exactly one database action per request, and a single
failed probe already yields `unhealthy`/500. -/
theorem health_c2_no_retry_catches_errors (probe : Except String Unit) (store : List Loan) :
    (health_check probe store).dbActions.length = 1 ∧
    (∀ e, probe = Except.error e →
      (health_check probe store).database = "unhealthy" ∧
      (health_check probe store).httpCode = 500) := by
  refine ⟨by simp [health_check], ?_⟩
  intro e he
  subst he
  simp [health_check]

/-- Witness for C2 at a concrete failed probe. -/
theorem health_c2_witness :
    (health_check (Except.error "connection refused") []).dbActions.length = 1 ∧
    (health_check (Except.error "connection refused") []).database = "unhealthy" ∧
    (health_check (Except.error "connection refused") []).httpCode = 500 := by
  have h := health_c2_no_retry_catches_errors (Except.error "connection refused") []
  exact ⟨h.1, (h.2 "connection refused" rfl).1, (h.2 "connection refused" rfl).2⟩

/-- C8: the health probe is read-only — for every probe outcome and
every store, serving `GET /health` leaves the stored loan rows
unchanged, and the only database action performed is the `SELECT 1`
probe. -/
theorem health_c8_read_only (probe : Except String Unit) (store : List Loan) :
    (health_check probe store).stored = store ∧
    (health_check probe store).dbActions = [DbAction.execSelect1] := by
  cases probe <;> simp [health_check]

/-- An environment: a finite association of variable names to values.
`os.getenv k` is embedded as `env.lookup k`. -/
def Env := List (String × String)

/-- Embedding of `os.getenv(key, default)`: the variable's value when
set, the default otherwise. -/
def getenvD (env : Env) (key default : String) : String :=
  (List.lookup key env).getD default

/-- The numeric value of a decimal digit character, `none` otherwise. -/
def charDigit (c : Char) : Option Nat :=
  if 48 ≤ c.toNat ∧ c.toNat ≤ 57 then some (c.toNat - 48) else none

/-- The value of a non-empty run of decimal digits, `none` if empty or
if any character is not a digit. -/
def decDigitsVal (cs : List Char) : Option Nat :=
  cs.foldl
    (fun acc c =>
      match acc, charDigit c with
      | some n, some d => some (n * 10 + d)
      | _, _ => none)
    (if cs.isEmpty then none else some 0)

/-- Embedding of Python's `int(...)` applied to a string, as in
`int(os.getenv("PORT", "8000"))`: an optional sign followed by decimal
digits; `none` embeds the raised `ValueError`. -/
def pyInt (s : String) : Option Int :=
  match s.data with
  | '-' :: rest => (decDigitsVal rest).map (fun n => -(n : Int))
  | '+' :: rest => (decDigitsVal rest).map (fun n => (n : Int))
  | cs => (decDigitsVal cs).map (fun n => (n : Int))

/-- Uppercase one ASCII character, as Python's `str.upper` does on the
ASCII range. -/
def charUpper (c : Char) : Char :=
  if 97 ≤ c.toNat ∧ c.toNat ≤ 122 then Char.ofNat (c.toNat - 32) else c

/-- Embedding of Python's `str.upper()` (over the ASCII range used by
log level names). -/
def pyUpper (s : String) : String :=
  String.mk (s.data.map charUpper)

namespace Config

/-- Embedding of `Config.FLASK_ENV` in `app/config.py`:
`os.getenv("FLASK_ENV", "development")`. -/
def FLASK_ENV (env : Env) : String :=
  getenvD env "FLASK_ENV" "development"

/-- Embedding of `Config.PORT` in `app/config.py`:
`int(os.getenv("PORT", "8000"))`. -/
def PORT (env : Env) : Option Int :=
  pyInt (getenvD env "PORT" "8000")

/-- Embedding of `Config.DATABASE_URL` in `app/config.py`. -/
def DATABASE_URL (env : Env) : String :=
  getenvD env "DATABASE_URL"
    "postgresql+psycopg2://postgres:postgres@db:5432/microloans"

/-- Embedding of `Config.SQLALCHEMY_DATABASE_URI` in `app/config.py`:
a copy of `DATABASE_URL`. -/
def SQLALCHEMY_DATABASE_URI (env : Env) : String :=
  DATABASE_URL env

/-- Embedding of `Config.SQLALCHEMY_TRACK_MODIFICATIONS`. -/
def SQLALCHEMY_TRACK_MODIFICATIONS : Bool :=
  false

end Config

/-- C9: with the corresponding environment variables unset,
configuration falls back to fixed defaults — `PORT` is the integer
8000, `FLASK_ENV` is `development`, `DATABASE_URL` is the fixed
postgres URL and is copied into `SQLALCHEMY_DATABASE_URI`; when a
variable is set its value is used, `PORT` being parsed as a decimal
integer. -/
theorem config_c9_defaults_and_overrides (env : Env) :
    (List.lookup "PORT" env = none → Config.PORT env = some 8000) ∧
    (List.lookup "FLASK_ENV" env = none → Config.FLASK_ENV env = "development") ∧
    (List.lookup "DATABASE_URL" env = none →
      Config.DATABASE_URL env =
        "postgresql+psycopg2://postgres:postgres@db:5432/microloans") ∧
    (∀ v, List.lookup "PORT" env = some v → Config.PORT env = pyInt v) ∧
    (∀ v, List.lookup "FLASK_ENV" env = some v → Config.FLASK_ENV env = v) ∧
    (∀ v, List.lookup "DATABASE_URL" env = some v → Config.DATABASE_URL env = v) ∧
    Config.SQLALCHEMY_DATABASE_URI env = Config.DATABASE_URL env := by
  refine ⟨?_, ?_, ?_, ?_, ?_, ?_, rfl⟩
  · intro h
    simp only [Config.PORT, getenvD, h, Option.getD]
    decide
  · intro h
    simp [Config.FLASK_ENV, getenvD, h]
  · intro h
    simp [Config.DATABASE_URL, getenvD, h]
  · intro v h
    simp [Config.PORT, getenvD, h]
  · intro v h
    simp [Config.FLASK_ENV, getenvD, h]
  · intro v h
    simp [Config.DATABASE_URL, getenvD, h]

/-- Witness for C9: the empty environment yields every default, and a
set `PORT` is parsed as a decimal integer. -/
theorem config_c9_witness :
    Config.PORT [] = some 8000 ∧
    Config.FLASK_ENV [] = "development" ∧
    Config.DATABASE_URL [] =
      "postgresql+psycopg2://postgres:postgres@db:5432/microloans" ∧
    Config.PORT [("PORT", "9090")] = some 9090 := by
  refine ⟨(config_c9_defaults_and_overrides []).1 rfl,
    (config_c9_defaults_and_overrides []).2.1 rfl,
    (config_c9_defaults_and_overrides []).2.2.1 rfl,
    ?_⟩
  have h := (config_c9_defaults_and_overrides [("PORT", "9090")]).2.2.2.1 "9090" rfl
  rw [h]
  decide

/-- The formatter attached to a logging handler. -/
inductive Formatter where
  | json
deriving DecidableEq, Repr

/-- A logging handler together with its formatter. -/
structure LogHandler where
  formatter : Formatter
deriving DecidableEq, Repr

/-- The root logger's mutable state: its handler list and its level. -/
structure RootLogger where
  handlers : List LogHandler
  level : String
deriving Repr

/-- Embedding of `setup_logging` in `app/__init__.py`: builds one
stream handler with the `JsonFormatter`, assigns `root.handlers` to
the one-element list holding it (discarding any previous handlers),
and sets the root level to `os.getenv("LOG_LEVEL", "INFO").upper()`. -/
def setup_logging (env : Env) (root : RootLogger) : RootLogger :=
  let handler : LogHandler := ⟨Formatter.json⟩
  let root1 : RootLogger := ⟨[handler], root.level⟩
  let log_level := pyUpper (getenvD env "LOG_LEVEL" "INFO")
  ⟨root1.handlers, log_level⟩

/-- C10: `setup_logging` replaces the root logger's handler list
wholesale with exactly one JSON-formatting stream handler, whatever
handlers were installed before, and sets the root level to the
uppercased `LOG_LEVEL` value, defaulting to `INFO` when unset. -/
theorem logging_c10_replaces_handlers (env : Env) (root : RootLogger) :
    (setup_logging env root).handlers = [⟨Formatter.json⟩] ∧
    (setup_logging env root).level = pyUpper (getenvD env "LOG_LEVEL" "INFO") ∧
    (List.lookup "LOG_LEVEL" env = none → (setup_logging env root).level = "INFO") := by
  refine ⟨rfl, rfl, ?_⟩
  intro h
  simp only [setup_logging, getenvD, h, Option.getD]
  decide

/-- Witness for C10: a root logger with two pre-installed handlers and
level `WARNING`, in an environment without `LOG_LEVEL`, ends up with
exactly the one JSON handler and level `INFO`. -/
theorem logging_c10_witness :
    (setup_logging [] ⟨[⟨Formatter.json⟩, ⟨Formatter.json⟩], "WARNING"⟩).handlers =
      [⟨Formatter.json⟩] ∧
    (setup_logging [] ⟨[⟨Formatter.json⟩, ⟨Formatter.json⟩], "WARNING"⟩).level = "INFO" := by
  have h := logging_c10_replaces_handlers [] ⟨[⟨Formatter.json⟩, ⟨Formatter.json⟩], "WARNING"⟩
  exact ⟨h.1, h.2.2 rfl⟩

/-- One registered HTTP route: method and full path. -/
structure Route where
  method : String
  path : String
deriving DecidableEq, Repr

/-- The single route of the health blueprint (`app/routes/health.py`):
`GET /health`. -/
def health_bp_routes : List Route :=
  [⟨"GET", "/health"⟩]

/-- Modelled from the spec: `app/routes/loans.py` is absent from the
repository snapshot; per the external-interface table its blueprint
declares `GET /loans`, `POST /loans` and `GET /loans/{id}`. -/
def loans_bp_routes : List Route :=
  [⟨"GET", "/loans"⟩, ⟨"POST", "/loans"⟩, ⟨"GET", "/loans/{id}"⟩]

/-- Modelled from the spec: `app/routes/stats.py` is absent from the
repository snapshot; per the external-interface table its blueprint
declares `GET /stats`. -/
def stats_bp_routes : List Route :=
  [⟨"GET", "/stats"⟩]

/-- Embedding of Flask's `register_blueprint`: every route of the
blueprint is served under the given url prefix (no prefix when
`none`). -/
def register_blueprint (routes : List Route) (pre : Option String) : List Route :=
  routes.map (fun r => ⟨r.method, pre.getD "" ++ r.path⟩)

/-- Embedding of the blueprint registrations in `create_app`
(`app/__init__.py`): the health blueprint with no prefix, then the
loans and stats blueprints each with url prefix `/api`. -/
def create_app_routes : List Route :=
  register_blueprint health_bp_routes none ++
  register_blueprint loans_bp_routes (some "/api") ++
  register_blueprint stats_bp_routes (some "/api")

/-- C7: the loan and stats endpoints are registered under the `/api`
prefix (`/api/loans`, `/api/loans/{id}`, `/api/stats`) while the
health endpoint is registered with no prefix at `/health`. -/
theorem routes_c7_api_prefix_layout :
    create_app_routes =
      [⟨"GET", "/health"⟩,
       ⟨"GET", "/api/loans"⟩, ⟨"POST", "/api/loans"⟩, ⟨"GET", "/api/loans/{id}"⟩,
       ⟨"GET", "/api/stats"⟩] ∧
    (⟨"GET", "/api/health"⟩ : Route) ∉ create_app_routes := by
  constructor
  · rfl
  · decide

/-- Whether a character is a hexadecimal digit. -/
def isHexDigitChar (c : Char) : Bool :=
  (48 ≤ c.toNat && c.toNat ≤ 57) ||
  (97 ≤ c.toNat && c.toNat ≤ 102) ||
  (65 ≤ c.toNat && c.toNat ≤ 70)

/-- Modelled from the spec: well-formed UUID syntax for loan
identifiers (`app/routes/loans.py` is absent from the repository
snapshot).  Canonical form: 36 characters, hyphens at positions 8, 13,
18 and 23, hexadecimal digits everywhere else. -/
def isWellFormedUUID (s : String) : Bool :=
  s.data.length = 36 &&
  s.data.enum.all
    (fun p =>
      if p.1 = 8 || p.1 = 13 || p.1 = 18 || p.1 = 23 then p.2 = '-'
      else isHexDigitChar p.2)

/-- A read access the repository performs against the store while
serving one request. -/
inductive StoreAccess where
  | queryById (id : String)
deriving DecidableEq, Repr

/-- The error taxonomy of the repository (spec section 7). -/
inductive RepoError where
  | validationError
  | invalidIdentifier
  | notFound
deriving DecidableEq, Repr

/-- The HTTP status code each repository error maps to (spec section 7). -/
def RepoError.httpCode : RepoError → Nat
  | RepoError.validationError => 400
  | RepoError.invalidIdentifier => 400
  | RepoError.notFound => 404

/-- Modelled from the spec: `get(id)` of the Loan Repository
(`app/routes/loans.py` is absent from the repository snapshot).
Checks UUID well-formedness before any store access — a malformed id
fails with `InvalidIdentifier` and an empty access trace; a
well-formed id is looked up in the store, failing with `NotFound` when
absent.  Returns the store accesses performed and the outcome. -/
def repo_get (store : List Loan) (id : String) :
    List StoreAccess × Except RepoError Loan :=
  if isWellFormedUUID id then
    match store.find? (fun l => l.id = id) with
    | some l => ([StoreAccess.queryById id], Except.ok l)
    | none => ([StoreAccess.queryById id], Except.error RepoError.notFound)
  else
    ([], Except.error RepoError.invalidIdentifier)

/-- C3: for every identifier that is not well-formed UUID syntax,
`get` fails with `InvalidIdentifier` (HTTP 400) regardless of the
store's state and performs no store access; for every well-formed
identifier matching no stored loan, it fails with `NotFound`
(HTTP 404). -/
theorem repo_get_c3_invalid_id_before_store (store : List Loan) (id : String) :
    (isWellFormedUUID id = false →
      repo_get store id = ([], Except.error RepoError.invalidIdentifier) ∧
      RepoError.invalidIdentifier.httpCode = 400) ∧
    (isWellFormedUUID id = true →
      store.find? (fun l => l.id = id) = none →
      repo_get store id =
        ([StoreAccess.queryById id], Except.error RepoError.notFound) ∧
      RepoError.notFound.httpCode = 404) := by
  constructor
  · intro h
    exact ⟨by simp [repo_get, h], rfl⟩
  · intro h hf
    exact ⟨by simp [repo_get, h, hf], rfl⟩

/-- Witness for C3: the test suite's malformed id `invalid-uuid` is
rejected with 400 and an empty access trace even on a non-empty store,
and an absent well-formed id yields 404. -/
theorem repo_get_c3_witness :
    repo_get [⟨"00000000-0000-0000-0000-000000000000", "u1", 5000, "INR", 12, 15,
        LoanStatus.pending, 0⟩] "invalid-uuid" =
      ([], Except.error RepoError.invalidIdentifier) ∧
    repo_get [] "123e4567-e89b-12d3-a456-426614174000" =
      ([StoreAccess.queryById "123e4567-e89b-12d3-a456-426614174000"],
       Except.error RepoError.notFound) := by
  constructor
  · exact ((repo_get_c3_invalid_id_before_store
      [⟨"00000000-0000-0000-0000-000000000000", "u1", 5000, "INR", 12, 15,
        LoanStatus.pending, 0⟩] "invalid-uuid").1 (by decide)).1
  · exact ((repo_get_c3_invalid_id_before_store
      [] "123e4567-e89b-12d3-a456-426614174000").2 (by decide) rfl).1

/-- The body of a `POST /loans` request; `none` embeds a missing
field. -/
structure CreateRequest where
  borrower_id : Option String
  amount : Option Rat
  currency : Option String
  term_months : Option Int
  interest_rate_apr : Option Rat
deriving DecidableEq, Repr

/-- Modelled from the spec: `create(...)` of the Loan Repository
(`app/routes/loans.py` is absent from the repository snapshot).
Validates that every field is present and numerically sane
(`amount > 0`, `term_months > 0`, `rate >= 0`), failing with
`ValidationError` and leaving the store unchanged otherwise; on
success persists one new Loan with the freshly generated identifier
`freshId`, the default status and the creation timestamp `now`, and
returns it.  The first component is the store after the request. -/
def repo_create (store : List Loan) (freshId : String) (now : Nat)
    (req : CreateRequest) : List Loan × Except RepoError Loan :=
  match req.borrower_id, req.amount, req.currency, req.term_months,
      req.interest_rate_apr with
  | some b, some a, some c, some t, some r =>
    if 0 < a ∧ 0 < t ∧ 0 ≤ r then
      (store ++ [⟨freshId, b, a, c, t, r, LoanStatus.pending, now⟩],
       Except.ok ⟨freshId, b, a, c, t, r, LoanStatus.pending, now⟩)
    else
      (store, Except.error RepoError.validationError)
  | _, _, _, _, _ => (store, Except.error RepoError.validationError)

/-- A successful `create` on a valid request appends exactly the new
loan and returns it. -/
theorem repo_create_valid (store : List Loan) (freshId : String) (now : Nat)
    (b c : String) (a r : Rat) (t : Int)
    (ha : 0 < a) (ht : 0 < t) (hr : 0 ≤ r) :
    repo_create store freshId now ⟨some b, some a, some c, some t, some r⟩ =
      (store ++ [⟨freshId, b, a, c, t, r, LoanStatus.pending, now⟩],
       Except.ok ⟨freshId, b, a, c, t, r, LoanStatus.pending, now⟩) := by
  simp [repo_create, ha, ht, hr]

/-- C4: a create request with a missing field, `amount <= 0`,
`term_months <= 0` or `interest_rate_apr < 0` fails with
`ValidationError` (HTTP 400) and leaves the store unchanged; a valid
request persists exactly one new Loan carrying the freshly generated
id and the default status, and returns it. -/
theorem repo_create_c4_validation (store : List Loan) (freshId : String)
    (now : Nat) (req : CreateRequest) :
    ((req.borrower_id = none ∨ req.amount = none ∨ req.currency = none ∨
      req.term_months = none ∨ req.interest_rate_apr = none ∨
      (∃ a, req.amount = some a ∧ a ≤ 0) ∨
      (∃ t, req.term_months = some t ∧ t ≤ 0) ∨
      (∃ r, req.interest_rate_apr = some r ∧ r < 0)) →
      repo_create store freshId now req =
        (store, Except.error RepoError.validationError) ∧
      RepoError.validationError.httpCode = 400) ∧
    (∀ b c a r t, req = ⟨some b, some a, some c, some t, some r⟩ →
      0 < a → 0 < t → 0 ≤ r →
      repo_create store freshId now req =
        (store ++ [⟨freshId, b, a, c, t, r, LoanStatus.pending, now⟩],
         Except.ok ⟨freshId, b, a, c, t, r, LoanStatus.pending, now⟩)) := by
  constructor
  · intro h
    refine ⟨?_, rfl⟩
    obtain ⟨b?, a?, c?, t?, r?⟩ := req
    cases b? with
    | none => rfl
    | some b =>
      cases a? with
      | none => rfl
      | some a =>
        cases c? with
        | none => rfl
        | some c =>
          cases t? with
          | none => rfl
          | some t =>
            cases r? with
            | none => rfl
            | some r =>
              simp only [Option.some.injEq, reduceCtorEq, false_or,
                exists_eq_left'] at h
              by_cases hc : 0 < a ∧ 0 < t ∧ 0 ≤ r
              · rcases h with h | h | h
                · exact absurd hc.1 (not_lt.mpr h)
                · exact absurd hc.2.1 (not_lt.mpr h)
                · exact absurd hc.2.2 (not_le.mpr h)
              · simp [repo_create, hc]
  · intro b c a r t hreq ha ht hr
    subst hreq
    exact repo_create_valid store freshId now b c a r t ha ht hr

/-- Witness for C4: a request with `amount = -5` is rejected leaving
the store unchanged, and the spec's example request is persisted. -/
theorem repo_create_c4_witness :
    repo_create [] "123e4567-e89b-12d3-a456-426614174001" 0
        ⟨some "u1", some (-5), some "INR", some 12, some 15⟩ =
      ([], Except.error RepoError.validationError) ∧
    repo_create [] "123e4567-e89b-12d3-a456-426614174001" 0
        ⟨some "u1", some 5000, some "INR", some 12, some 15⟩ =
      ([⟨"123e4567-e89b-12d3-a456-426614174001", "u1", 5000, "INR", 12, 15,
         LoanStatus.pending, 0⟩],
       Except.ok ⟨"123e4567-e89b-12d3-a456-426614174001", "u1", 5000, "INR",
         12, 15, LoanStatus.pending, 0⟩) := by
  constructor
  · exact ((repo_create_c4_validation [] "123e4567-e89b-12d3-a456-426614174001" 0
      ⟨some "u1", some (-5), some "INR", some 12, some 15⟩).1
      (Or.inr (Or.inr (Or.inr (Or.inr (Or.inr (Or.inl
        ⟨-5, rfl, by decide⟩))))))).1
  · exact (repo_create_c4_validation [] "123e4567-e89b-12d3-a456-426614174001" 0
      ⟨some "u1", some 5000, some "INR", some 12, some 15⟩).2
      "u1" "INR" 5000 15 12 rfl (by decide) (by decide) (by decide)

/-- The derived statistics snapshot (spec section 3): computed on
demand from all Loan rows, never persisted. -/
structure StatsSnapshot where
  total_loans : Nat
  total_amount : Rat
  avg_amount : Rat
  by_status : List (LoanStatus × Nat)
  by_currency : List (String × Nat)
deriving DecidableEq, Repr

/-- The distinct values observed in a list, each kept once. -/
def observedVals {α : Type} [DecidableEq α] : List α → List α
  | [] => []
  | x :: xs =>
    let rest := observedVals xs
    if x ∈ rest then rest else x :: rest

/-- How many times a value occurs in a list. -/
def countVal {α : Type} [DecidableEq α] (xs : List α) (a : α) : Nat :=
  (xs.filter (fun x => x = a)).length

/-- The sparse group-by counts of a list: one entry per observed value,
holding its occurrence count. -/
def groupCounts {α : Type} [DecidableEq α] (xs : List α) : List (α × Nat) :=
  (observedVals xs).map (fun a => (a, countVal xs a))

/-- Modelled from the spec: `compute()` of the Stats Aggregator
(`app/routes/stats.py` is absent from the repository snapshot).
Reads all Loan rows and derives the snapshot: count, sum of amounts,
mean amount (0 when there are zero loans), and sparse group-by counts
over the observed statuses and currencies. -/
def compute (store : List Loan) : StatsSnapshot :=
  { total_loans := store.length
    total_amount := (store.map (fun l => l.amount)).sum
    avg_amount :=
      if store.length = 0 then 0
      else (store.map (fun l => l.amount)).sum / (store.length : Rat)
    by_status := groupCounts (store.map (fun l => l.status))
    by_currency := groupCounts (store.map (fun l => l.currency)) }

/-- Membership in `observedVals` is membership in the list. -/
theorem mem_observedVals {α : Type} [DecidableEq α] (xs : List α) :
    ∀ a, a ∈ observedVals xs ↔ a ∈ xs := by
  induction xs with
  | nil => intro a; simp [observedVals]
  | cons x xs ih =>
    intro a
    simp only [observedVals]
    by_cases h : x ∈ observedVals xs
    · rw [if_pos h]
      constructor
      · intro ha
        exact List.mem_cons_of_mem x ((ih a).mp ha)
      · intro ha
        rcases List.mem_cons.mp ha with rfl | ha
        · exact h
        · exact (ih a).mpr ha
    · rw [if_neg h]
      constructor
      · intro ha
        rcases List.mem_cons.mp ha with rfl | ha
        · exact List.mem_cons_self a xs
        · exact List.mem_cons_of_mem x ((ih a).mp ha)
      · intro ha
        rcases List.mem_cons.mp ha with rfl | ha
        · exact List.mem_cons_self a (observedVals xs)
        · exact List.mem_cons_of_mem x ((ih a).mpr ha)

/-- A value occurring in a list has a positive occurrence count. -/
theorem countVal_pos {α : Type} [DecidableEq α] (xs : List α) (a : α)
    (h : a ∈ xs) : 0 < countVal xs a := by
  have hmem : a ∈ xs.filter (fun x => x = a) :=
    List.mem_filter.mpr ⟨h, by simp⟩
  exact List.length_pos.mpr (List.ne_nil_of_mem hmem)

/-- C5: over zero loans `compute` yields `total_loans = 0`,
`total_amount = 0`, `avg_amount = 0` (not an error) and empty
group-bys; moreover every entry of `by_status` and `by_currency` has a
positive count and a key observed in the stored loans — no zero-count
keys occur. -/
theorem stats_c5_empty_and_sparse :
    compute [] = ⟨0, 0, 0, [], []⟩ ∧
    (∀ (store : List Loan) (p : LoanStatus × Nat),
      p ∈ (compute store).by_status →
        0 < p.2 ∧ p.1 ∈ store.map (fun l => l.status)) ∧
    (∀ (store : List Loan) (p : String × Nat),
      p ∈ (compute store).by_currency →
        0 < p.2 ∧ p.1 ∈ store.map (fun l => l.currency)) := by
  refine ⟨rfl, ?_, ?_⟩
  · intro store p hp
    simp only [compute, groupCounts, List.mem_map] at hp
    obtain ⟨a, ha, rfl⟩ := hp
    have hmem := (mem_observedVals (store.map (fun l => l.status)) a).mp ha
    exact ⟨countVal_pos (store.map (fun l => l.status)) a hmem, hmem⟩
  · intro store p hp
    simp only [compute, groupCounts, List.mem_map] at hp
    obtain ⟨a, ha, rfl⟩ := hp
    have hmem := (mem_observedVals (store.map (fun l => l.currency)) a).mp ha
    exact ⟨countVal_pos (store.map (fun l => l.currency)) a hmem, hmem⟩

/-- Witness for C5: on a one-loan store the snapshot's `by_status`
entry for `pending` has the positive count 1, matching the theorem's
conclusion there. -/
theorem stats_c5_witness :
    0 < (LoanStatus.pending, 1).2 ∧
    (LoanStatus.pending, 1).1 ∈
      ([⟨"123e4567-e89b-12d3-a456-426614174002", "u1", 5000, "INR", 12, 15,
         LoanStatus.pending, 0⟩] : List Loan).map (fun l => l.status) :=
  stats_c5_empty_and_sparse.2.1
    [⟨"123e4567-e89b-12d3-a456-426614174002", "u1", 5000, "INR", 12, 15,
      LoanStatus.pending, 0⟩]
    (LoanStatus.pending, 1) (by decide)

/-- Looking up a fresh id in a store extended with a loan carrying that
id finds exactly the new loan. -/
theorem find_append_fresh (store : List Loan) (loan : Loan) (id : String)
    (hid : loan.id = id) (h : ∀ l ∈ store, l.id ≠ id) :
    (store ++ [loan]).find? (fun l => l.id = id) = some loan := by
  induction store with
  | nil =>
    simp only [List.nil_append]
    exact List.find?_cons_of_pos [] (by simp [hid])
  | cons x xs ih =>
    have hx : x.id ≠ id := h x (List.mem_cons_self x xs)
    rw [List.cons_append, List.find?_cons_of_neg _ (by simp [hx])]
    exact ih (fun l hl => h l (List.mem_cons_of_mem x hl))

/-- C6: create/get round-trip — a valid create request whose freshly
generated id is well-formed and absent from the store returns the new
Loan carrying that id and the default status; `get` on the resulting
store with that id returns the same record; and the subsequent stats
snapshot counts at least one loan and includes the new loan's amount
in `total_amount`. -/
theorem roundtrip_c6_create_get_stats (store : List Loan) (freshId : String)
    (now : Nat) (b c : String) (a r : Rat) (t : Int)
    (hWf : isWellFormedUUID freshId = true)
    (hFresh : ∀ l ∈ store, l.id ≠ freshId)
    (ha : 0 < a) (ht : 0 < t) (hr : 0 ≤ r) :
    (repo_create store freshId now ⟨some b, some a, some c, some t, some r⟩).2 =
      Except.ok ⟨freshId, b, a, c, t, r, LoanStatus.pending, now⟩ ∧
    (repo_get
        (repo_create store freshId now
          ⟨some b, some a, some c, some t, some r⟩).1 freshId).2 =
      Except.ok ⟨freshId, b, a, c, t, r, LoanStatus.pending, now⟩ ∧
    1 ≤ (compute
        (repo_create store freshId now
          ⟨some b, some a, some c, some t, some r⟩).1).total_loans ∧
    (compute
        (repo_create store freshId now
          ⟨some b, some a, some c, some t, some r⟩).1).total_amount =
      (compute store).total_amount + a := by
  have hc := repo_create_valid store freshId now b c a r t ha ht hr
  rw [hc]
  have hf := find_append_fresh store
    ⟨freshId, b, a, c, t, r, LoanStatus.pending, now⟩ freshId rfl hFresh
  refine ⟨rfl, ?_, ?_, ?_⟩
  · simp [repo_get, hWf, hf]
  · simp [compute]
  · simp [compute, List.map_append, List.sum_append]

/-- Witness for C6 at the spec's end-to-end example: creating the
`u1`/5000 INR loan in an empty store, then getting it back and
computing stats. -/
theorem roundtrip_c6_witness :
    (repo_create [] "123e4567-e89b-12d3-a456-426614174003" 0
        ⟨some "u1", some 5000, some "INR", some 12, some 15⟩).2 =
      Except.ok ⟨"123e4567-e89b-12d3-a456-426614174003", "u1", 5000, "INR",
        12, 15, LoanStatus.pending, 0⟩ ∧
    (repo_get
        (repo_create [] "123e4567-e89b-12d3-a456-426614174003" 0
          ⟨some "u1", some 5000, some "INR", some 12, some 15⟩).1
        "123e4567-e89b-12d3-a456-426614174003").2 =
      Except.ok ⟨"123e4567-e89b-12d3-a456-426614174003", "u1", 5000, "INR",
        12, 15, LoanStatus.pending, 0⟩ ∧
    1 ≤ (compute
        (repo_create [] "123e4567-e89b-12d3-a456-426614174003" 0
          ⟨some "u1", some 5000, some "INR", some 12, some 15⟩).1).total_loans ∧
    (compute
        (repo_create [] "123e4567-e89b-12d3-a456-426614174003" 0
          ⟨some "u1", some 5000, some "INR", some 12, some 15⟩).1).total_amount =
      (compute ([] : List Loan)).total_amount + 5000 :=
  roundtrip_c6_create_get_stats [] "123e4567-e89b-12d3-a456-426614174003" 0
    "u1" "INR" 5000 15 12 (by decide) (by simp) (by decide) (by decide)
    (by decide)
